import Mathlib

/-!
Shallow embedding of the Adaptive Cutting-Plan Orchestrator (src/app/main.py).

Conventions of the embedding:
* Python `float` dimensions are embedded as `Rat`; the orchestrator never does
  arithmetic on dimensions (it only copies and swaps them), so this is exact.
* Python `int` quantities are embedded as `Int`; `range(q)` becomes
  `List.range q.toNat` (Python `range` of a non-positive int is empty).
* Python dicts built by successive assignment are embedded as association
  lists in insertion order; `dictGet` looks the list up from the back, so a
  later assignment to the same key wins, exactly as in Python.
* The external packing capability (`opcut.calculate.calculate`) is a black
  box; it is abstracted as an oracle `OpcutParams → PackOutcome`, where
  `PackOutcome.unresolvable` models `opcut.common.UnresolvableError` and
  `PackOutcome.otherError c m` models any other exception of class name `c`
  with message `m`.
* Wall-clock measurement (`time.time()`) is abstracted as a parameter `t`
  used wherever the code stores an elapsed time.
-/

inductive Grain where
  | horizontal
  | vertical
deriving DecidableEq

inductive EngravedLine where
  | horizontal
  | vertical
  | none
deriving DecidableEq

/-- The four border flags; in the source this is a string-keyed dict read
with `.get(key, False)` on exactly these four keys. -/
structure Borders where
  top : Bool
  right : Bool
  bottom : Bool
  left : Bool
deriving DecidableEq

/-- `PanelInput` pydantic model (src/app/main.py, lines 14-19). -/
structure PanelInput where
  name : String
  width : Rat
  height : Rat
  quantity : Int
  grain : Grain
deriving DecidableEq

/-- `ItemInput` pydantic model (src/app/main.py, lines 22-32). -/
structure ItemInput where
  name : String
  width : Rat
  height : Rat
  isRotate : Bool
  quantity : Int
  grain : Grain
  engraved_line : EngravedLine
  borders : Borders
deriving DecidableEq

/-- `UserParams` pydantic model (src/app/main.py, lines 35-39). -/
structure UserParams where
  cut_width : Rat
  min_initial_usage : Bool
  panels : List PanelInput
  items : List ItemInput
deriving DecidableEq

/-- `opcut.common.Panel` as constructed in `_expand_panels`. -/
structure Panel where
  id : String
  width : Rat
  height : Rat
deriving DecidableEq

/-- `opcut.common.Item` as constructed in `_expand_items`. -/
structure Item where
  id : String
  width : Rat
  height : Rat
  can_rotate : Bool
deriving DecidableEq

/-- `opcut.common.Params` as constructed in `calculate` (lines 359-364). -/
structure OpcutParams where
  cut_width : Rat
  min_initial_usage : Bool
  panels : List Panel
  items : List Item
deriving DecidableEq

/-- The dict returned by `_transform_item_for_calculation` (lines 102-113). -/
structure TransformedItem where
  name : String
  width : Rat
  height : Rat
  isRotate : Bool
  quantity : Int
  grain : Grain
  engraved_line : EngravedLine
  borders : Borders
  original_width : Rat
  original_height : Rat
deriving DecidableEq

/-- `CuttingOptimizer._transform_item_for_calculation` (lines 91-113):
swap width and height when the item grain differs from the panel grain. -/
def transform_item_for_calculation (item : ItemInput) (panel : PanelInput) : TransformedItem :=
  let cutting_width := if item.grain ≠ panel.grain then item.height else item.width
  let cutting_height := if item.grain ≠ panel.grain then item.width else item.height
  { name := item.name, width := cutting_width, height := cutting_height,
    isRotate := item.isRotate, quantity := item.quantity, grain := item.grain,
    engraved_line := item.engraved_line, borders := item.borders,
    original_width := item.width, original_height := item.height }

/-- `CuttingOptimizer._expand_panels` (lines 115-124). -/
def expand_panels (panels : List PanelInput) : List Panel :=
  panels.flatMap fun panel =>
    (List.range panel.quantity.toNat).map fun i =>
      { id := panel.name ++ "_" ++ toString (i + 1),
        width := panel.width, height := panel.height }

/-- `CuttingOptimizer._expand_items` (lines 126-143): every item spec is
transformed against the single reference panel handed in by the caller. -/
def expand_items (items : List ItemInput) (panel : PanelInput) : List Item :=
  items.flatMap fun item =>
    let transformed_item := transform_item_for_calculation item panel
    (List.range item.quantity.toNat).map fun i =>
      { id := item.name ++ "_" ++ toString (i + 1),
        width := transformed_item.width, height := transformed_item.height,
        can_rotate := item.isRotate }

/-- One value of the `item_mapping` dict built by `_create_item_mapping`
(lines 145-165). -/
structure ItemDetails where
  name : String
  width : Rat
  height : Rat
  original_width : Rat
  original_height : Rat
  can_rotate : Bool
  grain : Grain
  engraved_line : EngravedLine
  borders : Borders
deriving DecidableEq

/-- The value stored for every unit of one item spec by
`_create_item_mapping` (lines 154-164). -/
def item_details_of (item : ItemInput) (panel : PanelInput) : ItemDetails :=
  let transformed_item := transform_item_for_calculation item panel
  { name := item.name, width := transformed_item.width, height := transformed_item.height,
    original_width := item.width, original_height := item.height,
    can_rotate := item.isRotate, grain := item.grain,
    engraved_line := item.engraved_line, borders := item.borders }

/-- `CuttingOptimizer._create_item_mapping` (lines 145-165), as an
association list in insertion order. -/
def create_item_mapping (items : List ItemInput) (panel : PanelInput) :
    List (String × ItemDetails) :=
  items.flatMap fun item =>
    (List.range item.quantity.toNat).map fun i =>
      (item.name ++ "_" ++ toString (i + 1), item_details_of item panel)

/-- One value of the `panel_mapping` dict built by `_create_panel_mapping`
(lines 167-179). -/
structure PanelDetails where
  name : String
  width : Rat
  height : Rat
  grain : Grain
deriving DecidableEq

/-- `CuttingOptimizer._create_panel_mapping` (lines 167-179). -/
def create_panel_mapping (panels : List PanelInput) : List (String × PanelDetails) :=
  panels.flatMap fun panel =>
    (List.range panel.quantity.toNat).map fun i =>
      (panel.name ++ "_" ++ toString (i + 1),
       { name := panel.name, width := panel.width, height := panel.height,
         grain := panel.grain })

/-- Python-dict lookup on an insertion-ordered association list: the last
assignment to a key wins. -/
def dictGet {α : Type} (m : List (String × α)) (k : String) : Option α :=
  m.reverse.lookup k

/-- `UsedItem` pydantic model (lines 42-54). -/
structure UsedItem where
  item_id : String
  name : String
  width : Rat
  height : Rat
  x : Rat
  y : Rat
  rotate : Bool
  grain : Grain
  engraved_line : EngravedLine
  borders : Borders
deriving DecidableEq

/-- `UnusedArea` pydantic model (lines 57-61). -/
structure UnusedArea where
  width : Rat
  height : Rat
  x : Rat
  y : Rat
deriving DecidableEq

/-- `PanelOutput` pydantic model (lines 64-70); also the shape of one
`panels_dict` entry built by `_build_panel_structure`. -/
structure PanelOutput where
  panel_id : String
  panel_name : String
  width : Rat
  height : Rat
  used_items : List UsedItem
  unused_areas : List UnusedArea
deriving DecidableEq

/-- `CalculationResponse` pydantic model (lines 73-79); the summary dict is
kept as an association list of its keys in insertion order. -/
structure CalculationResponse where
  success : Bool
  panels : List PanelOutput
  cuts : List String
  summary : List (String × Nat)
  error : Option String
  calculation_time : Option Rat
deriving DecidableEq

/-- One entry of the raw result's `used` list as consumed by
`_transform_used_item_for_display` (keys `panel`, `item`, `x`, `y`,
`rotate`, and optionally `width`/`height`, read with `.get`). -/
structure RawUsedItem where
  panel : String
  item : String
  x : Rat
  y : Rat
  rotate : Bool
  width : Option Rat
  height : Option Rat
deriving DecidableEq

/-- One entry of the raw result's `unused` list (lines 270-281). -/
structure RawUnusedArea where
  panel : String
  width : Rat
  height : Rat
  x : Rat
  y : Rat
deriving DecidableEq

/-- The raw packing result consumed by `transform_result`; `cuts` is
optional because some methods do not return cuts (lines 288-290). -/
structure RawResult where
  used : List RawUsedItem
  unused : List RawUnusedArea
  cuts : Option (List String)
deriving DecidableEq

/-- A raised Python exception: class name and message. -/
structure PyError where
  category : String
  message : String
deriving DecidableEq

/-- The field defaults used in `_transform_used_item_for_display` when the
unit id is absent from `item_mapping` (`item_mapping.get(item_id, {})`
followed by per-key `.get` defaults, lines 196-206 and 236). -/
def default_item_details : ItemDetails :=
  { name := "", width := 0, height := 0, original_width := 0, original_height := 0,
    can_rotate := false, grain := Grain.vertical, engraved_line := EngravedLine.none,
    borders := { top := false, right := false, bottom := false, left := false } }

/-- `CuttingOptimizer._transform_used_item_for_display` (lines 193-245). -/
def transform_used_item_for_display (used_item : RawUsedItem)
    (item_mapping : List (String × ItemDetails)) (panel : PanelInput) : UsedItem :=
  let item_details := (dictGet item_mapping used_item.item).getD default_item_details
  let cutting_width := used_item.width.getD item_details.width
  let cutting_height := used_item.height.getD item_details.height
  let grain := item_details.grain
  let engraved_origin := item_details.engraved_line
  let borders := item_details.borders
  if grain ≠ panel.grain then
    let engraved :=
      match engraved_origin with
      | EngravedLine.none => EngravedLine.none
      | EngravedLine.horizontal => EngravedLine.vertical
      | EngravedLine.vertical => EngravedLine.horizontal
    let rotated_borders : Borders :=
      { top := borders.left, right := borders.top, bottom := borders.right,
        left := borders.bottom }
    { item_id := used_item.item, name := item_details.name,
      width := cutting_width, height := cutting_height,
      x := used_item.x, y := used_item.y, rotate := used_item.rotate,
      grain := grain, engraved_line := engraved, borders := rotated_borders }
  else
    { item_id := used_item.item, name := item_details.name,
      width := cutting_width, height := cutting_height,
      x := used_item.x, y := used_item.y, rotate := used_item.rotate,
      grain := grain, engraved_line := engraved_origin, borders := borders }

/-- `CuttingOptimizer._build_panel_structure` (lines 181-191);
`panel_mapping[panel_id]` raises `KeyError` when the id is absent. -/
def build_panel_structure (panel_id : String)
    (panel_mapping : List (String × PanelDetails)) : Except PyError PanelOutput :=
  match dictGet panel_mapping panel_id with
  | Option.none => Except.error { category := "KeyError", message := panel_id }
  | Option.some panel_data =>
      Except.ok { panel_id := panel_id, panel_name := panel_data.name,
                  width := panel_data.width, height := panel_data.height,
                  used_items := [], unused_areas := [] }

/-- `panel_id not in panels_dict` membership test. -/
def dict_member {α : Type} (m : List (String × α)) (k : String) : Bool :=
  (dictGet m k).isSome

/-- In-place update of one key's value in `panels_dict`. -/
def dict_update {α : Type} (m : List (String × α)) (k : String) (f : α → α) :
    List (String × α) :=
  m.map fun e => if e.1 = k then (e.1, f e.2) else e

/-- The `for used_item in result["used"]` loop of `transform_result`
(lines 258-266), threading `panels_dict` as an insertion-ordered
association list. -/
def process_used (panel_mapping : List (String × PanelDetails))
    (item_mapping : List (String × ItemDetails)) (panel0 : PanelInput) :
    List (String × PanelOutput) → List RawUsedItem →
    Except PyError (List (String × PanelOutput))
  | d, [] => Except.ok d
  | d, used_item :: rest => do
      let d ←
        if dict_member d used_item.panel then pure d
        else do
          let s ← build_panel_structure used_item.panel panel_mapping
          pure (d ++ [(used_item.panel, s)])
      let enriched := transform_used_item_for_display used_item item_mapping panel0
      process_used panel_mapping item_mapping panel0
        (dict_update d used_item.panel fun s =>
          { s with used_items := s.used_items ++ [enriched] }) rest

/-- The `for unused_area in result["unused"]` loop of `transform_result`
(lines 269-281). -/
def process_unused (panel_mapping : List (String × PanelDetails)) :
    List (String × PanelOutput) → List RawUnusedArea →
    Except PyError (List (String × PanelOutput))
  | d, [] => Except.ok d
  | d, unused_area :: rest => do
      let d ←
        if dict_member d unused_area.panel then pure d
        else do
          let s ← build_panel_structure unused_area.panel panel_mapping
          pure (d ++ [(unused_area.panel, s)])
      process_unused panel_mapping
        (dict_update d unused_area.panel fun s =>
          { s with unused_areas := s.unused_areas ++
              [{ width := unused_area.width, height := unused_area.height,
                 x := unused_area.x, y := unused_area.y }] }) rest

/-- Lexicographic string order as used by Python `sorted` on `panel_id`. -/
def string_le (a b : String) : Bool := !(compare a b == Ordering.gt)

/-- Stable insertion used to model Python's stable `sorted` (line 284-285). -/
def insert_by_panel_id (x : PanelOutput) : List PanelOutput → List PanelOutput
  | [] => [x]
  | y :: ys =>
      if string_le x.panel_id y.panel_id then x :: y :: ys
      else y :: insert_by_panel_id x ys

/-- `sorted(panels_dict.values(), key=lambda x: x["panel_id"])`. -/
def sort_by_panel_id (l : List PanelOutput) : List PanelOutput :=
  l.foldr insert_by_panel_id []

/-- `CuttingOptimizer.transform_result` (lines 247-311). A raised exception
(`IndexError` on an empty panel list at `user_params.panels[0]`, or
`KeyError` from `_build_panel_structure`) is re-raised by the except block
at lines 307-311 and modelled as `Except.error`. -/
def transform_result (result : RawResult) (user_params : UserParams) :
    Except PyError CalculationResponse :=
  match user_params.panels with
  | [] => Except.error { category := "IndexError", message := "list index out of range" }
  | panel0 :: _ => do
      let item_mapping := create_item_mapping user_params.items panel0
      let panel_mapping := create_panel_mapping user_params.panels
      let d ← process_used panel_mapping item_mapping panel0 [] result.used
      let d2 ← process_unused panel_mapping d result.unused
      let panels_list := sort_by_panel_id (d2.map Prod.snd)
      Except.ok { success := true, panels := panels_list,
                  cuts := result.cuts.getD [],
                  summary := [("total_panels_used", panels_list.length),
                              ("total_items_placed", result.used.length),
                              ("total_unused_areas", result.unused.length)],
                  error := Option.none, calculation_time := Option.none }

/-- `CuttingOptimizer._increment_panel_quantities` (lines 313-326): rebuild
`UserParams` from a copy, with every panel's quantity incremented. -/
def increment_panel_quantities (user_params : UserParams) (increment : Int) : UserParams :=
  { user_params with
    panels := user_params.panels.map fun panel =>
      { panel with quantity := panel.quantity + increment } }

/-- `CuttingOptimizer._get_total_panel_quantity` (lines 328-330). -/
def get_total_panel_quantity (user_params : UserParams) : Int :=
  (user_params.panels.map PanelInput.quantity).sum

/-- Outcome of one invocation of the external packing capability. -/
inductive PackOutcome where
  | ok (result : RawResult)
  | unresolvable (message : String)
  | otherError (category : String) (message : String)

/-- The `opcut.common.Params` value built for one attempt (lines 352-364);
`panel0` is `current_user_params.panels[0]`, the argument of
`_expand_items`. -/
def opcut_params_of (user_params : UserParams) (panel0 : PanelInput) : OpcutParams :=
  { cut_width := user_params.cut_width,
    min_initial_usage := user_params.min_initial_usage,
    panels := expand_panels user_params.panels,
    items := expand_items user_params.items panel0 }

/-- The terminal response of the generic `except Exception` handler
(lines 409-422): `error = f-string of the exception class and message`. -/
def py_error_response (category message : String) (t : Rat) : CalculationResponse :=
  { success := false, panels := [], cuts := [], summary := [],
    error := Option.some (category ++ ": " ++ message),
    calculation_time := Option.some t }

/-- The error message of the ceiling-exhaustion branch (line 405),
embedding the final total panel quantity. -/
def ceiling_message (n : Int) : String :=
  "UnresolvableError: No valid cutting solution found even with " ++ toString n ++
    " panels. Try adjusting item dimensions or using different optimization method."

/-- The terminal response of the ceiling-exhaustion branch (lines 400-407). -/
def ceiling_response (n : Int) (t : Rat) : CalculationResponse :=
  { success := false, panels := [], cuts := [], summary := [],
    error := Option.some (ceiling_message n),
    calculation_time := Option.some t }

theorem total_increment_panel_quantities (user_params : UserParams) (inc : Int) :
    get_total_panel_quantity (increment_panel_quantities user_params inc) =
      get_total_panel_quantity user_params + user_params.panels.length * inc := by
  unfold get_total_panel_quantity increment_panel_quantities
  induction user_params.panels with
  | nil => simp
  | cons p ps ih =>
      simp only [List.map_cons, List.sum_cons, List.length_cons] at *
      push_cast
      linarith [ih]

theorem panels_increment_panel_quantities (user_params : UserParams) (inc : Int) :
    (increment_panel_quantities user_params inc).panels.length =
      user_params.panels.length := by
  simp [increment_panel_quantities]

/-- `CuttingOptimizer.calculate` (lines 332-422): the `while True` retry
loop. One iteration evaluates `current_user_params.panels[0]` (raising
`IndexError` on an empty list), invokes the packing capability through the
oracle, and dispatches on the outcome exactly as the two except blocks do:
on success `transform_result` is applied (its exceptions fall into the
generic handler); on `UnresolvableError` with total quantity below 50 the
quantities are incremented by 1 and the loop repeats; at or above 50 the
ceiling response is returned; any other failure is returned immediately. -/
def calculate_loop (oracle : OpcutParams → PackOutcome) (t : Rat)
    (user_params : UserParams) : CalculationResponse :=
  match hp : user_params.panels with
  | [] => py_error_response "IndexError" "list index out of range" t
  | panel0 :: _ =>
    match oracle (opcut_params_of user_params panel0) with
    | PackOutcome.ok raw =>
        match transform_result raw user_params with
        | Except.ok resp => { resp with calculation_time := Option.some t }
        | Except.error e => py_error_response e.category e.message t
    | PackOutcome.unresolvable _ =>
        if h : get_total_panel_quantity user_params < 50 then
          calculate_loop oracle t (increment_panel_quantities user_params 1)
        else
          ceiling_response (get_total_panel_quantity user_params) t
    | PackOutcome.otherError c m => py_error_response c m t
  termination_by (50 - get_total_panel_quantity user_params).toNat
  decreasing_by
    have htot := total_increment_panel_quantities user_params 1
    have hlen : 1 ≤ user_params.panels.length := by
      rw [hp]; exact Nat.succ_le_succ (Nat.zero_le _)
    omega

/-- The `/calculate` endpoint `calculate_optimization` (lines 438-470).
Before delegating to `CuttingOptimizer.calculate` it executes
`user_params.panels[0].quantity = 1` (line 458), mutating the submitted
spec in place; on an empty panel list that statement raises `IndexError`,
which the endpoint's handler turns into an `API Error` response. -/
def calculate_optimization (oracle : OpcutParams → PackOutcome) (t : Rat)
    (user_params : UserParams) : CalculationResponse :=
  match user_params.panels with
  | [] => { success := false, panels := [], cuts := [], summary := [],
            error := Option.some "API Error: list index out of range",
            calculation_time := Option.none }
  | panel0 :: rest =>
      calculate_loop oracle t
        { user_params with panels := { panel0 with quantity := 1 } :: rest }

/-- Modelled from the spec (section 4.1 rule, for the refinement comparison of
claim C3 only): the cutting-orientation dimensions an item unit should get
against the specific panel it is assigned to — swapped exactly when the
item's grain differs from the assigned panel's grain. -/
def spec_cutting_dims (item : ItemInput) (assigned_panel : PanelInput) : Rat × Rat :=
  if item.grain ≠ assigned_panel.grain then (item.height, item.width)
  else (item.width, item.height)

/-- The round trip of claim C1: run the grain transform on an item, hand
the unit `name_1` with its cutting dimensions (unrotated placement) to
result assembly, and read back the display record, exactly as `calculate`
composes `_create_item_mapping`, the packer, and
`_transform_used_item_for_display` against the same reference panel. -/
def round_trip_used_item (item : ItemInput) (panel : PanelInput) : UsedItem :=
  let mapping := create_item_mapping [item] panel
  let transformed_item := transform_item_for_calculation item panel
  transform_used_item_for_display
    { panel := "panel_1", item := item.name ++ "_" ++ toString (0 + 1 : Nat),
      x := 0, y := 0, rotate := false,
      width := Option.some transformed_item.width,
      height := Option.some transformed_item.height }
    mapping panel

/-- `needle` occurs as a contiguous substring of `s`. -/
def contains_sub (needle s : String) : Prop := ∃ a b, s = a ++ needle ++ b

/-! ## Helper lemmas -/

theorem lookup_of_all_eq {α : Type} (v : α) :
    ∀ (l : List (String × α)) (k : String), (∀ e ∈ l, e.2 = v) →
      k ∈ l.map Prod.fst → l.lookup k = some v := by
  intro l
  induction l with
  | nil => intro k _ hk; simp at hk
  | cons e rest ih =>
      intro k hall hk
      by_cases hke : k = e.1
      · subst hke
        simp [List.lookup, hall e (by simp)]
      · have hbeq : (k == e.1) = false := by simp [hke]
        have hk2 : k ∈ rest.map Prod.fst := by
          rw [List.map_cons, List.mem_cons] at hk
          exact hk.resolve_left hke
        simp only [List.lookup, hbeq]
        exact ih k (fun x hx => hall x (by simp [hx])) hk2

theorem dictGet_of_all_eq {α : Type} (v : α) (m : List (String × α)) (k : String)
    (hall : ∀ e ∈ m, e.2 = v) (hk : k ∈ m.map Prod.fst) : dictGet m k = some v := by
  unfold dictGet
  refine lookup_of_all_eq v m.reverse k ?_ ?_
  · intro e he; exact hall e (List.mem_reverse.mp he)
  · rw [List.map_reverse, List.mem_reverse]; exact hk

theorem lookup_isSome_iff {α : Type} :
    ∀ (l : List (String × α)) (k : String),
      (l.lookup k).isSome = true ↔ k ∈ l.map Prod.fst := by
  intro l
  induction l with
  | nil => intro k; simp [List.lookup]
  | cons e rest ih =>
      intro k
      by_cases hke : k = e.1
      · subst hke
        simp [List.lookup]
      · have hbeq : (k == e.1) = false := by simp [hke]
        simp only [List.lookup, hbeq, List.map_cons, List.mem_cons]
        rw [ih k]
        exact (or_iff_right hke).symm

theorem dict_member_iff {α : Type} (m : List (String × α)) (k : String) :
    dict_member m k = true ↔ k ∈ m.map Prod.fst := by
  unfold dict_member dictGet
  rw [lookup_isSome_iff m.reverse k, List.map_reverse, List.mem_reverse]

theorem keys_dict_update {α : Type} (m : List (String × α)) (k : String) (f : α → α) :
    (dict_update m k f).map Prod.fst = m.map Prod.fst := by
  unfold dict_update
  induction m with
  | nil => rfl
  | cons e rest ih =>
      simp only [List.map_cons] at *
      by_cases he : e.1 = k <;> simp [he, ih]

theorem length_insert_by_panel_id (x : PanelOutput) :
    ∀ l : List PanelOutput, (insert_by_panel_id x l).length = l.length + 1 := by
  intro l
  induction l with
  | nil => rfl
  | cons y ys ih =>
      unfold insert_by_panel_id
      by_cases h : string_le x.panel_id y.panel_id = true <;>
        simp [h, ih]

theorem length_sort_by_panel_id (l : List PanelOutput) :
    (sort_by_panel_id l).length = l.length := by
  unfold sort_by_panel_id
  induction l with
  | nil => rfl
  | cons y ys ih => simp [List.foldr_cons, length_insert_by_panel_id, ih]

/-- The key-insertion step of `panels_dict`: a new panel id is appended to
the key list only when not already present. -/
def insert_key (acc : List String) (k : String) : List String :=
  if k ∈ acc then acc else acc ++ [k]

theorem foldl_insert_key_nodup_toFinset :
    ∀ (l acc : List String), acc.Nodup →
      (l.foldl insert_key acc).Nodup ∧
        (l.foldl insert_key acc).toFinset = acc.toFinset ∪ l.toFinset := by
  intro l
  induction l with
  | nil => intro acc h; simpa using h
  | cons k rest ih =>
      intro acc h
      rw [List.foldl_cons]
      have hstep : (insert_key acc k).Nodup ∧
          (insert_key acc k).toFinset = acc.toFinset ∪ {k} := by
        unfold insert_key
        by_cases hk : k ∈ acc
        · refine ⟨(if_pos hk) ▸ h, ?_⟩
          rw [if_pos hk]
          have : k ∈ acc.toFinset := List.mem_toFinset.mpr hk
          rw [Finset.union_eq_left.mpr]
          simpa using this
        · refine ⟨(if_neg hk) ▸ ?_, ?_⟩
          · simpa [List.nodup_append] using ⟨h, hk⟩
          · rw [if_neg hk]
            simp [List.toFinset_append]
      obtain ⟨h1, h2⟩ := ih (insert_key acc k) hstep.1
      refine ⟨h1, ?_⟩
      rw [h2, hstep.2, List.toFinset_cons]
      ext a
      simp [or_comm, or_assoc, or_left_comm]

theorem process_used_keys (pm : List (String × PanelDetails))
    (im : List (String × ItemDetails)) (p0 : PanelInput) :
    ∀ (us : List RawUsedItem) (d d2 : List (String × PanelOutput)),
      process_used pm im p0 d us = Except.ok d2 →
      d2.map Prod.fst = (us.map RawUsedItem.panel).foldl insert_key (d.map Prod.fst) := by
  intro us
  induction us with
  | nil =>
      intro d d2 h
      simp only [process_used] at h
      cases h
      simp
  | cons u rest ih =>
      intro d d2 h
      simp only [process_used] at h
      by_cases hm : dict_member d u.panel = true
      · rw [if_pos hm] at h
        simp only [Bind.bind, Except.bind, Pure.pure, Except.pure] at h
        have := ih _ _ h
        rw [this, keys_dict_update]
        have hmem : u.panel ∈ d.map Prod.fst := (dict_member_iff d u.panel).mp hm
        simp [insert_key, hmem]
      · rw [if_neg hm] at h
        cases hb : build_panel_structure u.panel pm with
        | error e =>
            rw [hb] at h
            simp only [Bind.bind, Except.bind, Pure.pure, Except.pure] at h
            exact absurd h (by simp)
        | ok s =>
            rw [hb] at h
            simp only [Bind.bind, Except.bind, Pure.pure, Except.pure] at h
            have := ih _ _ h
            rw [this, keys_dict_update]
            have hmem : u.panel ∉ d.map Prod.fst := fun hc =>
              hm ((dict_member_iff d u.panel).mpr hc)
            simp [insert_key, hmem]

theorem process_unused_keys (pm : List (String × PanelDetails)) :
    ∀ (un : List RawUnusedArea) (d d2 : List (String × PanelOutput)),
      process_unused pm d un = Except.ok d2 →
      d2.map Prod.fst = (un.map RawUnusedArea.panel).foldl insert_key (d.map Prod.fst) := by
  intro un
  induction un with
  | nil =>
      intro d d2 h
      simp only [process_unused] at h
      cases h
      simp
  | cons u rest ih =>
      intro d d2 h
      simp only [process_unused] at h
      by_cases hm : dict_member d u.panel = true
      · rw [if_pos hm] at h
        simp only [Bind.bind, Except.bind, Pure.pure, Except.pure] at h
        have := ih _ _ h
        rw [this, keys_dict_update]
        have hmem : u.panel ∈ d.map Prod.fst := (dict_member_iff d u.panel).mp hm
        simp [insert_key, hmem]
      · rw [if_neg hm] at h
        cases hb : build_panel_structure u.panel pm with
        | error e =>
            rw [hb] at h
            simp only [Bind.bind, Except.bind, Pure.pure, Except.pure] at h
            exact absurd h (by simp)
        | ok s =>
            rw [hb] at h
            simp only [Bind.bind, Except.bind, Pure.pure, Except.pure] at h
            have := ih _ _ h
            rw [this, keys_dict_update]
            have hmem : u.panel ∉ d.map Prod.fst := fun hc =>
              hm ((dict_member_iff d u.panel).mpr hc)
            simp [insert_key, hmem]

/-! ## Claim theorems -/

/-- C10: between two consecutive retry attempts, `_increment_panel_quantities`
changes only the panel quantities (each by exactly the increment, here 1):
the cut width, the min-initial-usage flag and the item specs are identical,
and every panel spec keeps its name, width, height and grain. (The retry
loop `calculate_loop` changes the attempt parameters only through this
function.) -/
theorem C10_increment_changes_only_quantities (user_params : UserParams) :
    (increment_panel_quantities user_params 1).cut_width = user_params.cut_width ∧
    (increment_panel_quantities user_params 1).min_initial_usage =
      user_params.min_initial_usage ∧
    (increment_panel_quantities user_params 1).items = user_params.items ∧
    (increment_panel_quantities user_params 1).panels =
      (user_params.panels.map fun panel =>
        { name := panel.name, width := panel.width, height := panel.height,
          quantity := panel.quantity + 1, grain := panel.grain }) := by
  refine ⟨rfl, rfl, rfl, ?_⟩
  unfold increment_panel_quantities
  rfl

/-- C8: quantity expansion is deterministic and canonical: a spec with
quantity Q expands to exactly Q units whose identifiers are
`name_1 .. name_Q` in that order (for panels and for items); being a pure
function of the spec, expanding the same input twice yields the identical
ordered identifier list. -/
theorem C8_expansion_deterministic (p : PanelInput) (item : ItemInput)
    (refPanel : PanelInput) (hp : 0 ≤ p.quantity) (hi : 0 ≤ item.quantity) :
    ((expand_panels [p]).map Panel.id =
        (List.range p.quantity.toNat).map (fun i => p.name ++ "_" ++ toString (i + 1)) ∧
      ((expand_panels [p]).length : Int) = p.quantity) ∧
    ((expand_items [item] refPanel).map Item.id =
        (List.range item.quantity.toNat).map (fun i => item.name ++ "_" ++ toString (i + 1)) ∧
      ((expand_items [item] refPanel).length : Int) = item.quantity) := by
  refine ⟨⟨?_, ?_⟩, ?_, ?_⟩
  · simp [expand_panels]
  · simp [expand_panels, Int.toNat_of_nonneg hp]
  · simp [expand_items]
  · simp [expand_items, Int.toNat_of_nonneg hi]

/-- Concrete panel spec for the C8 witness. -/
def c8_panel : PanelInput :=
  { name := "p", width := 10, height := 20, quantity := 2, grain := Grain.vertical }

/-- Concrete item spec for the C8 witness. -/
def c8_item : ItemInput :=
  { name := "it", width := 3, height := 4, isRotate := false, quantity := 3,
    grain := Grain.vertical, engraved_line := EngravedLine.none,
    borders := { top := false, right := false, bottom := false, left := false } }

/-- Witness for C8 at a concrete panel spec (quantity 2) and item spec
(quantity 3). -/
theorem C8_expansion_deterministic_witness :
    ((expand_panels [c8_panel]).map Panel.id =
        (List.range (2 : Int).toNat).map (fun i => "p" ++ "_" ++ toString (i + 1)) ∧
      ((expand_panels [c8_panel]).length : Int) = 2) ∧
    ((expand_items [c8_item] c8_panel).map Item.id =
        (List.range (3 : Int).toNat).map (fun i => "it" ++ "_" ++ toString (i + 1)) ∧
      ((expand_items [c8_item] c8_panel).length : Int) = 3) :=
  C8_expansion_deterministic c8_panel c8_item c8_panel (by decide) (by decide)

/-- C3 (amended): the width/height swap is evaluated for every item against
the grain of the single reference panel handed to `_expand_items` — in
`calculate` always the first panel spec of the request — uniformly for all
units of all items, not against the panel a unit is later assigned to:
every expanded unit of an item spec carries exactly `spec_cutting_dims`
of that spec against the reference panel. -/
theorem C3_swap_uses_reference_panel_only (items : List ItemInput) (panel0 : PanelInput) :
    (expand_items items panel0).map (fun u => (u.width, u.height)) =
      items.flatMap fun item =>
        List.replicate item.quantity.toNat (spec_cutting_dims item panel0) := by
  induction items with
  | nil => rfl
  | cons item rest ih =>
      simp only [expand_items, List.flatMap_cons, List.map_append] at *
      rw [ih]
      congr 1
      by_cases h : item.grain = panel0.grain <;>
        simp [transform_item_for_calculation, spec_cutting_dims, h,
          List.map_const', List.eq_replicate_iff]

/-- Vertical-grain item spec of the C3 counterexample. -/
def c3_item : ItemInput :=
  { name := "it", width := 30, height := 40, isRotate := false, quantity := 1,
    grain := Grain.vertical, engraved_line := EngravedLine.none,
    borders := { top := false, right := false, bottom := false, left := false } }

/-- First (vertical-grain) panel spec of the C3 counterexample. -/
def c3_panel_v : PanelInput :=
  { name := "pv", width := 100, height := 100, quantity := 1, grain := Grain.vertical }

/-- Second (horizontal-grain) panel spec of the C3 counterexample. -/
def c3_panel_h : PanelInput :=
  { name := "ph", width := 100, height := 100, quantity := 1, grain := Grain.horizontal }

/-- Mixed-grain request of the C3 counterexample. -/
def c3_params : UserParams :=
  { cut_width := 3, min_initial_usage := false,
    panels := [c3_panel_v, c3_panel_h], items := [c3_item] }

/-- C3 counterexample: in a mixed-grain request, the geometry handed to the
packer contains a unit of the horizontal-grain panel `ph_1`, yet the single
item unit is submitted with its unswapped dimensions (30, 40): they were
fixed against the first panel spec before any assignment, so if the packer
assigns the unit to `ph_1`, its dimensions do not satisfy the per-assigned-
panel rule `spec_cutting_dims`, which demands the swap (40, 30). -/
theorem C3_counterexample :
    (opcut_params_of c3_params c3_panel_v).panels.map Panel.id = ["pv_1", "ph_1"] ∧
    (opcut_params_of c3_params c3_panel_v).items.map (fun u => (u.width, u.height)) =
      [((30 : Rat), (40 : Rat))] ∧
    spec_cutting_dims c3_item c3_panel_h = ((40 : Rat), (30 : Rat)) ∧
    ((30 : Rat), (40 : Rat)) ≠ ((40 : Rat), (30 : Rat)) := by
  refine ⟨rfl, rfl, rfl, by decide⟩

/-- Oracle of the C2 theorem: reports the number of panel units it was
handed, so the response exposes which quantities the first attempt used. -/
def probe_oracle : OpcutParams → PackOutcome :=
  fun q => PackOutcome.otherError "Probe" (toString q.panels.length)

/-- Submitted request of the C2 theorem: one panel spec with quantity 5. -/
def c2_params : UserParams :=
  { cut_width := 3, min_initial_usage := false,
    panels := [{ name := "A", width := 100, height := 200, quantity := 5,
                 grain := Grain.vertical }],
    items := [] }

/-- The parameters `calculate_optimization` actually hands to the pipeline
for `c2_params`: the first panel's quantity forced to 1. -/
def c2_params_mutated : UserParams :=
  { cut_width := 3, min_initial_usage := false,
    panels := [{ name := "A", width := 100, height := 200, quantity := 1,
                 grain := Grain.vertical }],
    items := [] }

/-- C2: the API entry point mutates the submitted spec in place —
`calculate_optimization` executes `user_params.panels[0].quantity = 1`
(src/app/main.py line 458) before delegating, so for a request declaring
quantity 5 the first calculation attempt is handed 1 panel unit, not the 5
the request declared (which the un-mutated pipeline `calculate_loop` would
have used). -/
theorem C2_api_entry_overwrites_first_quantity :
    c2_params.panels.map PanelInput.quantity = [5] ∧
    calculate_optimization probe_oracle 0 c2_params = py_error_response "Probe" "1" 0 ∧
    calculate_loop probe_oracle 0 c2_params = py_error_response "Probe" "5" 0 := by
  refine ⟨rfl, ?_, ?_⟩
  · show calculate_loop probe_oracle 0 c2_params_mutated = py_error_response "Probe" "1" 0
    rw [calculate_loop]
    simp [c2_params_mutated, probe_oracle, opcut_params_of, expand_panels, expand_items]
    rfl
  · rw [calculate_loop]
    simp [c2_params, probe_oracle, opcut_params_of, expand_panels, expand_items]
    rfl

/-- C9: any failure of the packing capability other than the infeasibility
signal is terminal and never retried: on the very first such outcome the
loop returns a structured response with `success = false`, an error built
from the failure's class name and message, and the elapsed time — no
recursive attempt is made and no exception escapes. -/
theorem C9_other_failures_not_retried (oracle : OpcutParams → PackOutcome) (t : Rat)
    (user_params : UserParams) (panel0 : PanelInput) (rest : List PanelInput)
    (c m : String)
    (hp : user_params.panels = panel0 :: rest)
    (ho : oracle (opcut_params_of user_params panel0) = PackOutcome.otherError c m) :
    calculate_loop oracle t user_params = py_error_response c m t ∧
    (py_error_response c m t).success = false ∧
    (py_error_response c m t).error = Option.some (c ++ ": " ++ m) ∧
    (py_error_response c m t).calculation_time = Option.some t := by
  refine ⟨?_, rfl, rfl, rfl⟩
  rw [calculate_loop]
  split
  · next heq => rw [hp] at heq; cases heq
  · next p0 tail heq =>
      rw [hp] at heq
      injection heq with h1 h2
      subst h1
      rw [ho]

/-- Concrete failing oracle for the C9 witness. -/
def c9_oracle : OpcutParams → PackOutcome :=
  fun _ => PackOutcome.otherError "ValueError" "boom"

/-- Witness for C9: a concrete request whose first attempt fails with a
non-infeasibility error is answered by the terminal error response. -/
theorem C9_other_failures_not_retried_witness :
    calculate_loop c9_oracle 0 c2_params = py_error_response "ValueError" "boom" 0 ∧
    (py_error_response "ValueError" "boom" (0 : Rat)).success = false ∧
    (py_error_response "ValueError" "boom" (0 : Rat)).error =
      Option.some ("ValueError" ++ ": " ++ "boom") ∧
    (py_error_response "ValueError" "boom" (0 : Rat)).calculation_time =
      Option.some (0 : Rat) :=
  C9_other_failures_not_retried c9_oracle 0 c2_params _ [] "ValueError" "boom" rfl rfl

theorem iterate_increment_total (user_params : UserParams) :
    ∀ k : Nat,
      ((fun u => increment_panel_quantities u 1)^[k] user_params).panels.length =
        user_params.panels.length ∧
      get_total_panel_quantity ((fun u => increment_panel_quantities u 1)^[k] user_params) =
        get_total_panel_quantity user_params + k * user_params.panels.length := by
  intro k
  induction k with
  | zero => simp
  | succ k ih =>
      rw [Function.iterate_succ_apply']
      obtain ⟨hlen, htot⟩ := ih
      refine ⟨?_, ?_⟩
      · rw [panels_increment_panel_quantities, hlen]
      · rw [total_increment_panel_quantities, htot, hlen]
        push_cast
        ring

/-- C4: on an infeasibility signal with total panel quantity below the
ceiling 50, the loop produces a new attempt by incrementing every panel
spec's quantity by exactly 1 and recursing on it; hence each subsequent
attempt's total panel quantity is strictly greater than the previous
one, and after at most `(50 - initial total)` increments the total
reaches the ceiling, so the retry loop terminates. -/
theorem C4_retry_monotone_terminates (oracle : OpcutParams → PackOutcome) (t : Rat)
    (msg : String) (user_params : UserParams) (panel0 : PanelInput)
    (rest : List PanelInput)
    (hp : user_params.panels = panel0 :: rest)
    (ho : oracle (opcut_params_of user_params panel0) = PackOutcome.unresolvable msg)
    (h50 : get_total_panel_quantity user_params < 50) :
    calculate_loop oracle t user_params =
      calculate_loop oracle t (increment_panel_quantities user_params 1) ∧
    (increment_panel_quantities user_params 1).panels.map PanelInput.quantity =
      user_params.panels.map (fun panel => panel.quantity + 1) ∧
    get_total_panel_quantity user_params <
      get_total_panel_quantity (increment_panel_quantities user_params 1) ∧
    ∃ k : Nat, k ≤ (50 - get_total_panel_quantity user_params).toNat ∧
      50 ≤ get_total_panel_quantity
        ((fun u => increment_panel_quantities u 1)^[k] user_params) := by
  have hlen : 1 ≤ user_params.panels.length := by
    rw [hp]; simp
  refine ⟨?_, ?_, ?_, ?_⟩
  · conv_lhs => rw [calculate_loop]
    split
    · next heq => rw [hp] at heq; cases heq
    · next p0 tail heq =>
        rw [hp] at heq
        injection heq with h1 h2
        subst h1
        simp only [ho, dif_pos h50]
  · unfold increment_panel_quantities
    simp
  · rw [total_increment_panel_quantities]
    have : (0 : Int) < user_params.panels.length * 1 := by
      omega
    omega
  · refine ⟨(50 - get_total_panel_quantity user_params).toNat, le_rfl, ?_⟩
    rw [(iterate_increment_total user_params _).2]
    have hc : (1 : Int) ≤ (user_params.panels.length : Int) := by exact_mod_cast hlen
    set t2 := get_total_panel_quantity user_params with ht2
    have h1 : ((50 - t2).toNat : Int) = 50 - t2 := Int.toNat_of_nonneg (by omega)
    have h2 : (50 - t2) * 1 ≤ (50 - t2) * (user_params.panels.length : Int) := by
      apply mul_le_mul_of_nonneg_left hc (by omega)
    rw [h1]
    nlinarith

/-- Single-panel request of quantity 1 for the C4 and C5 witnesses. -/
def c4_params : UserParams :=
  { cut_width := 3, min_initial_usage := false,
    panels := [{ name := "p", width := 10, height := 10, quantity := 1,
                 grain := Grain.vertical }],
    items := [c8_item] }

/-- Always-infeasible oracle for the C4 and C5 witnesses. -/
def c5_oracle : OpcutParams → PackOutcome :=
  fun _ => PackOutcome.unresolvable "no fit"

/-- Witness for C4 at a concrete one-panel request of quantity 1 whose
first attempt is infeasible. -/
theorem C4_retry_monotone_terminates_witness :
    calculate_loop c5_oracle 0 c4_params =
      calculate_loop c5_oracle 0 (increment_panel_quantities c4_params 1) ∧
    (increment_panel_quantities c4_params 1).panels.map PanelInput.quantity =
      c4_params.panels.map (fun panel => panel.quantity + 1) ∧
    get_total_panel_quantity c4_params <
      get_total_panel_quantity (increment_panel_quantities c4_params 1) ∧
    ∃ k : Nat, k ≤ (50 - get_total_panel_quantity c4_params).toNat ∧
      50 ≤ get_total_panel_quantity
        ((fun u => increment_panel_quantities u 1)^[k] c4_params) :=
  C4_retry_monotone_terminates c5_oracle 0 "no fit" c4_params _ [] rfl rfl (by decide)

theorem calculate_loop_all_unresolvable (oracle : OpcutParams → PackOutcome)
    (t : Rat) (msg : String)
    (horacle : ∀ q, oracle q = PackOutcome.unresolvable msg) :
    ∀ (k : Nat) (user_params : UserParams),
      (50 - get_total_panel_quantity user_params).toNat ≤ k →
      user_params.panels ≠ [] →
      ∃ n, 50 ≤ n ∧ calculate_loop oracle t user_params = ceiling_response n t := by
  intro k
  induction k with
  | zero =>
      intro params hk hne
      have h50 : ¬ get_total_panel_quantity params < 50 := by omega
      refine ⟨get_total_panel_quantity params, by omega, ?_⟩
      rw [calculate_loop]
      split
      · next heq => exact absurd heq hne
      · next p0 tail heq =>
          simp only [horacle, dif_neg h50]
  | succ k ih =>
      intro params hk hne
      by_cases h50 : get_total_panel_quantity params < 50
      · have hlen : 1 ≤ params.panels.length := by
          cases hp : params.panels with
          | nil => exact absurd hp hne
          | cons a l => simp
        have hne2 : (increment_panel_quantities params 1).panels ≠ [] := by
          simpa [increment_panel_quantities] using hne
        have htot := total_increment_panel_quantities params 1
        have hk2 : (50 - get_total_panel_quantity
            (increment_panel_quantities params 1)).toNat ≤ k := by
          have : (1 : Int) ≤ (params.panels.length : Int) := by exact_mod_cast hlen
          omega
        obtain ⟨n, hn, heq⟩ := ih (increment_panel_quantities params 1) hk2 hne2
        refine ⟨n, hn, ?_⟩
        rw [calculate_loop]
        split
        · next h => exact absurd h hne
        · next p0 tail h =>
            simp only [horacle, dif_pos h50]
            exact heq
      · refine ⟨get_total_panel_quantity params, by omega, ?_⟩
        rw [calculate_loop]
        split
        · next heq => exact absurd heq hne
        · next p0 tail heq =>
            simp only [horacle, dif_neg h50]

/-- C5: when the packer keeps reporting infeasible, the loop ends in a
structured response (never an escaping exception) with `success = false`
whose error message embeds the final total panel quantity attempted, a
quantity at or above the ceiling 50; in particular a retry sequence whose
final quantity is exactly 50 yields a message containing "50". -/
theorem C5_ceiling_exhaustion_reports_final_quantity
    (oracle : OpcutParams → PackOutcome) (t : Rat) (msg : String)
    (user_params : UserParams) (hne : user_params.panels ≠ [])
    (horacle : ∀ q, oracle q = PackOutcome.unresolvable msg) :
    ∃ n, 50 ≤ n ∧
      calculate_loop oracle t user_params = ceiling_response n t ∧
      (ceiling_response n t).success = false ∧
      (ceiling_response n t).error = Option.some (ceiling_message n) ∧
      contains_sub (toString n) (ceiling_message n) ∧
      (n = 50 → contains_sub "50" (ceiling_message n)) := by
  obtain ⟨n, hn, heq⟩ :=
    calculate_loop_all_unresolvable oracle t msg horacle
      (50 - get_total_panel_quantity user_params).toNat user_params le_rfl hne
  refine ⟨n, hn, heq, rfl, rfl, ?_, ?_⟩
  · exact ⟨"UnresolvableError: No valid cutting solution found even with ",
      " panels. Try adjusting item dimensions or using different optimization method.",
      rfl⟩
  · intro h50
    subst h50
    exact ⟨"UnresolvableError: No valid cutting solution found even with ",
      " panels. Try adjusting item dimensions or using different optimization method.",
      by rfl⟩

/-- Witness for C5: a concrete one-panel request of quantity 1 against an
always-infeasible packer ends in the ceiling-exhaustion response. -/
theorem C5_ceiling_exhaustion_reports_final_quantity_witness :
    ∃ n, 50 ≤ n ∧
      calculate_loop c5_oracle 0 c4_params = ceiling_response n 0 ∧
      (ceiling_response n (0 : Rat)).success = false ∧
      (ceiling_response n (0 : Rat)).error = Option.some (ceiling_message n) ∧
      contains_sub (toString n) (ceiling_message n) ∧
      (n = 50 → contains_sub "50" (ceiling_message n)) :=
  C5_ceiling_exhaustion_reports_final_quantity c5_oracle 0 "no fit" c4_params
    (by simp [c4_params]) (fun _ => rfl)

theorem round_trip_lookup (item : ItemInput) (panel : PanelInput) (hq : 1 ≤ item.quantity) :
    dictGet (create_item_mapping [item] panel) (item.name ++ "_" ++ toString (0 + 1 : Nat)) =
      some (item_details_of item panel) := by
  apply dictGet_of_all_eq
  · intro e he
    simp only [create_item_mapping, List.flatMap_cons, List.flatMap_nil, List.append_nil,
      List.mem_map] at he
    obtain ⟨i, _, rfl⟩ := he
    rfl
  · have h0 : 0 ∈ List.range item.quantity.toNat := by
      rw [List.mem_range]
      omega
    simp only [create_item_mapping, List.flatMap_cons, List.flatMap_nil, List.append_nil,
      List.map_map, List.mem_map]
    exact ⟨0, h0, rfl⟩

/-- C1 (amended): the composition of the grain transform with result
assembly reproduces the original width, height, engraved-line orientation
and border flags exactly when the item's grain matches the reference
panel's grain; when the grains differ, the assembled record instead shows
the cutting-orientation (swapped) width/height, the engraved-line
orientation flipped, and the border flags rotated 90 degrees clockwise. -/
theorem C1_round_trip_amended (item : ItemInput) (panel : PanelInput)
    (hq : 1 ≤ item.quantity) :
    (item.grain = panel.grain →
      round_trip_used_item item panel =
        { item_id := item.name ++ "_" ++ toString (0 + 1 : Nat), name := item.name,
          width := item.width, height := item.height, x := 0, y := 0, rotate := false,
          grain := item.grain, engraved_line := item.engraved_line,
          borders := item.borders }) ∧
    (item.grain ≠ panel.grain →
      (round_trip_used_item item panel).width = item.height ∧
      (round_trip_used_item item panel).height = item.width ∧
      (round_trip_used_item item panel).engraved_line =
        (match item.engraved_line with
          | EngravedLine.none => EngravedLine.none
          | EngravedLine.horizontal => EngravedLine.vertical
          | EngravedLine.vertical => EngravedLine.horizontal) ∧
      (round_trip_used_item item panel).borders =
        { top := item.borders.left, right := item.borders.top,
          bottom := item.borders.right, left := item.borders.bottom }) := by
  have hl := round_trip_lookup item panel hq
  constructor
  · intro h
    simp [round_trip_used_item, transform_used_item_for_display, hl,
      item_details_of, transform_item_for_calculation, h]
  · intro h
    simp [round_trip_used_item, transform_used_item_for_display, hl,
      item_details_of, transform_item_for_calculation, h]

/-- Cross-grain item of the C1 counterexample and witness: declared width
500, height 300, engraved line horizontal, top border only. -/
def c1_item : ItemInput :=
  { name := "it", width := 500, height := 300, isRotate := false, quantity := 1,
    grain := Grain.horizontal, engraved_line := EngravedLine.horizontal,
    borders := { top := true, right := false, bottom := false, left := false } }

/-- Vertical-grain reference panel of the C1 counterexample. -/
def c1_panel : PanelInput :=
  { name := "p", width := 2440, height := 1220, quantity := 1, grain := Grain.vertical }

/-- C1 counterexample: for a horizontal-grain item against a vertical-grain
panel the round trip does not reproduce the original values — the width
comes back 300 instead of 500, the height 500 instead of 300, the engraved
line vertical instead of horizontal, and the border flags rotated. -/
theorem C1_counterexample :
    (round_trip_used_item c1_item c1_panel).width ≠ c1_item.width ∧
    (round_trip_used_item c1_item c1_panel).height ≠ c1_item.height ∧
    (round_trip_used_item c1_item c1_panel).engraved_line ≠ c1_item.engraved_line ∧
    (round_trip_used_item c1_item c1_panel).borders ≠ c1_item.borders := by
  refine ⟨by decide, by decide, by decide, by decide⟩

/-- Witness for C1 (amended) at the concrete cross-grain item `c1_item`. -/
theorem C1_round_trip_amended_witness :
    (c1_item.grain = c1_panel.grain →
      round_trip_used_item c1_item c1_panel =
        { item_id := c1_item.name ++ "_" ++ toString (0 + 1 : Nat), name := c1_item.name,
          width := c1_item.width, height := c1_item.height, x := 0, y := 0, rotate := false,
          grain := c1_item.grain, engraved_line := c1_item.engraved_line,
          borders := c1_item.borders }) ∧
    (c1_item.grain ≠ c1_panel.grain →
      (round_trip_used_item c1_item c1_panel).width = c1_item.height ∧
      (round_trip_used_item c1_item c1_panel).height = c1_item.width ∧
      (round_trip_used_item c1_item c1_panel).engraved_line =
        (match c1_item.engraved_line with
          | EngravedLine.none => EngravedLine.none
          | EngravedLine.horizontal => EngravedLine.vertical
          | EngravedLine.vertical => EngravedLine.horizontal) ∧
      (round_trip_used_item c1_item c1_panel).borders =
        { top := c1_item.borders.left, right := c1_item.borders.top,
          bottom := c1_item.borders.right, left := c1_item.borders.bottom }) :=
  C1_round_trip_amended c1_item c1_panel (by decide)

/-- C6 (amended): a placement whose item unit id is absent from the item
metadata index does not fail result assembly; instead
`item_mapping.get(item_id, {})` silently substitutes default metadata, and
the display record is produced with empty name, the placement record's own
dimensions (or 0), vertical grain, no engraved line and no borders. -/
theorem C6_missing_unit_id_gets_defaults (used_item : RawUsedItem)
    (item_mapping : List (String × ItemDetails)) (panel : PanelInput)
    (h : dictGet item_mapping used_item.item = Option.none) :
    transform_used_item_for_display used_item item_mapping panel =
      { item_id := used_item.item, name := "", width := used_item.width.getD 0,
        height := used_item.height.getD 0, x := used_item.x, y := used_item.y,
        rotate := used_item.rotate, grain := Grain.vertical,
        engraved_line := EngravedLine.none,
        borders := { top := false, right := false, bottom := false, left := false } } := by
  cases hg : panel.grain <;>
    simp [transform_used_item_for_display, h, default_item_details, hg]

/-- Orphan placement record for the C6 counterexample and witness. -/
def c6_used : RawUsedItem :=
  { panel := "p_1", item := "ghost_1", x := 1, y := 2, rotate := false,
    width := Option.some 5, height := Option.some 6 }

/-- Witness for C6 (amended): the orphan unit id `ghost_1` is absent from
the empty index, and the display record is the defaulted one. -/
theorem C6_missing_unit_id_gets_defaults_witness :
    dictGet ([] : List (String × ItemDetails)) c6_used.item = Option.none ∧
    transform_used_item_for_display c6_used [] c1_panel =
      { item_id := c6_used.item, name := "", width := c6_used.width.getD 0,
        height := c6_used.height.getD 0, x := c6_used.x, y := c6_used.y,
        rotate := c6_used.rotate, grain := Grain.vertical,
        engraved_line := EngravedLine.none,
        borders := { top := false, right := false, bottom := false, left := false } } :=
  ⟨rfl, C6_missing_unit_id_gets_defaults c6_used [] c1_panel rfl⟩

/-- Panel spec of the C6 counterexample request. -/
def c6_panel : PanelInput :=
  { name := "p", width := 10, height := 10, quantity := 1, grain := Grain.vertical }

/-- Item spec of the C6 counterexample request (its only unit id is `it_1`,
never `ghost_1`). -/
def c6_item : ItemInput :=
  { name := "it", width := 2, height := 2, isRotate := false, quantity := 1,
    grain := Grain.vertical, engraved_line := EngravedLine.none,
    borders := { top := false, right := false, bottom := false, left := false } }

/-- Request of the C6 counterexample. -/
def c6_params : UserParams :=
  { cut_width := 3, min_initial_usage := false, panels := [c6_panel], items := [c6_item] }

/-- Raw packing result of the C6 counterexample: its single placement
references the unit id `ghost_1`, absent from the item metadata index. -/
def c6_raw : RawResult :=
  { used := [c6_used], unused := [], cuts := Option.some [] }

/-- The successful response the code assembles for `c6_raw`. -/
def c6_resp : CalculationResponse :=
  { success := true,
    panels := [{ panel_id := "p_1", panel_name := "p", width := 10, height := 10,
                 used_items := [{ item_id := "ghost_1", name := "", width := 5,
                                  height := 6, x := 1, y := 2, rotate := false,
                                  grain := Grain.vertical,
                                  engraved_line := EngravedLine.none,
                                  borders := { top := false, right := false,
                                               bottom := false, left := false } }],
                 unused_areas := [] }],
    cuts := [],
    summary := [("total_panels_used", 1), ("total_items_placed", 1),
                ("total_unused_areas", 0)],
    error := Option.none, calculation_time := Option.none }

/-- C6 counterexample: a placement referencing the unit id `ghost_1`, which
is absent from the item metadata index, does not make result assembly fail
fatally — assembly succeeds and produces a placed-item record for
`ghost_1` with substituted default metadata (empty display name). -/
theorem C6_counterexample :
    dictGet (create_item_mapping c6_params.items c6_panel) "ghost_1" = Option.none ∧
    transform_result c6_raw c6_params = Except.ok c6_resp ∧
    c6_resp.success = true ∧
    c6_resp.panels.map (fun p => p.used_items.map UsedItem.item_id) = [["ghost_1"]] ∧
    c6_resp.panels.map (fun p => p.used_items.map UsedItem.name) = [[""]] := by
  refine ⟨rfl, rfl, rfl, rfl, rfl⟩

/-- C7: on every successful assembly, the summary's `total_items_placed`
equals the number of placement records in the raw result, and
`total_panels_used` equals the number of distinct panel unit ids appearing
in either the placements or the unused regions. -/
theorem C7_summary_consistency (result : RawResult) (user_params : UserParams)
    (resp : CalculationResponse)
    (h : transform_result result user_params = Except.ok resp) :
    resp.summary.lookup "total_items_placed" = some result.used.length ∧
    resp.summary.lookup "total_panels_used" =
      some ((result.used.map RawUsedItem.panel ++
        result.unused.map RawUnusedArea.panel).toFinset.card) := by
  unfold transform_result at h
  split at h
  · exact absurd h (by simp)
  · next panel0 ptail heq =>
      simp only [Bind.bind, Except.bind] at h
      cases h1 : process_used (create_panel_mapping user_params.panels)
          (create_item_mapping user_params.items panel0) panel0 [] result.used with
      | error e => rw [h1] at h; exact absurd h (by simp)
      | ok d =>
          rw [h1] at h
          simp only [] at h
          cases h2 : process_unused (create_panel_mapping user_params.panels) d
              result.unused with
          | error e =>
              rw [h2] at h
              simp only [] at h
              exact absurd h (by simp)
          | ok d2 =>
              rw [h2] at h
              simp only [] at h
              cases h
              have hk1 := process_used_keys _ _ _ result.used [] d h1
              have hk2 := process_unused_keys _ result.unused d d2 h2
              have hfold : d2.map Prod.fst =
                  (result.used.map RawUsedItem.panel ++
                    result.unused.map RawUnusedArea.panel).foldl insert_key [] := by
                rw [hk2, hk1]
                simp [List.foldl_append]
              have hnd := foldl_insert_key_nodup_toFinset
                (result.used.map RawUsedItem.panel ++
                  result.unused.map RawUnusedArea.panel) [] (by simp)
              constructor
              · simp [List.lookup]
              · have hlen : (sort_by_panel_id (d2.map Prod.snd)).length =
                    (result.used.map RawUsedItem.panel ++
                      result.unused.map RawUnusedArea.panel).toFinset.card := by
                  rw [length_sort_by_panel_id, List.length_map]
                  have hd2 : d2.length = (d2.map Prod.fst).length :=
                    (List.length_map _ _).symm
                  rw [hd2, hfold, ← List.toFinset_card_of_nodup hnd.1, hnd.2]
                  simp
                simp [List.lookup, hlen]

/-- Request of the C7 witness. -/
def c7_params : UserParams :=
  { cut_width := 3, min_initial_usage := false,
    panels := [{ name := "p", width := 10, height := 10, quantity := 1,
                 grain := Grain.vertical }],
    items := [{ name := "it", width := 2, height := 2, isRotate := false, quantity := 1,
                grain := Grain.vertical, engraved_line := EngravedLine.none,
                borders := { top := false, right := false, bottom := false,
                             left := false } }] }

/-- Raw packing result of the C7 witness: one placement and one unused
region, both on panel unit `p_1`. -/
def c7_raw : RawResult :=
  { used := [{ panel := "p_1", item := "it_1", x := 0, y := 0, rotate := false,
               width := Option.some 2, height := Option.some 2 }],
    unused := [{ panel := "p_1", width := 8, height := 10, x := 2, y := 0 }],
    cuts := Option.none }

/-- The response assembled for `c7_raw`. -/
def c7_resp : CalculationResponse :=
  { success := true,
    panels := [{ panel_id := "p_1", panel_name := "p", width := 10, height := 10,
                 used_items := [{ item_id := "it_1", name := "it", width := 2,
                                  height := 2, x := 0, y := 0, rotate := false,
                                  grain := Grain.vertical,
                                  engraved_line := EngravedLine.none,
                                  borders := { top := false, right := false,
                                               bottom := false, left := false } }],
                 unused_areas := [{ width := 8, height := 10, x := 2, y := 0 }] }],
    cuts := [],
    summary := [("total_panels_used", 1), ("total_items_placed", 1),
                ("total_unused_areas", 1)],
    error := Option.none, calculation_time := Option.none }

/-- Witness for C7 at a concrete successful assembly. -/
theorem C7_summary_consistency_witness :
    transform_result c7_raw c7_params = Except.ok c7_resp ∧
    c7_resp.summary.lookup "total_items_placed" = some c7_raw.used.length ∧
    c7_resp.summary.lookup "total_panels_used" =
      some ((c7_raw.used.map RawUsedItem.panel ++
        c7_raw.unused.map RawUnusedArea.panel).toFinset.card) ∧
    (c7_raw.used.map RawUsedItem.panel ++
      c7_raw.unused.map RawUnusedArea.panel).toFinset.card = 1 :=
  ⟨rfl, (C7_summary_consistency c7_raw c7_params c7_resp rfl).1,
    (C7_summary_consistency c7_raw c7_params c7_resp rfl).2, by decide⟩
